import Mathlib

/-!
Verification of the minute-aligned wake-up subsystem of `tui-time`
(`src/main.rs`), a terminal clock that redraws once per minute via a
`timerfd` armed in absolute mode and races the timer future against a
quit signal from a keyboard-listener thread.

The embedding below translates the source functions into pure Lean
definitions:

* `wait_then_consume_tfd_read` (src/main.rs:50-82) becomes `waitBody`,
  a function of the raw `read(2)` return value, the errno observed when
  the read fails, and the outcome of the re-arm call; it returns the
  ordered list of side-effecting actions performed (clearing the
  readiness guard, re-arming the timer) together with the
  `anyhow::Result<()>` value.
* `arm_tfd_to_every_minute` (src/main.rs:113-146) becomes
  `arm_tfd_itimerspec`, computing the `itimerspec` passed to
  `timerfd_settime`, with u64 arithmetic modelled modulo 2^64 and the
  `as libc::time_t` cast modelled as the wrapping u64 → i64 conversion.
* the event-listener thread closure (src/main.rs:24-32) becomes
  `isQuitTrigger` / `workerRun`.
* the `main` loop (src/main.rs:35-43) becomes `mainTrace` /
  `mainResult`, driven by a list of injected select outcomes: each list
  element says which branch of the per-iteration `tokio::select!` race
  resolved, and with what low-level read outcome.
-/

/-- Linux value of `libc::ECANCELED` (asm-generic errno). -/
def ECANCELED : Int := 125

/-- Errors that `wait_then_consume_tfd_read` can produce, one
constructor per `Err` site in src/main.rs:50-82. `osRead` keeps the
errno of a non-ECANCELED failing read; `armFailed` is the `?`
propagation of a failing `arm_tfd_to_every_minute` on the cancellation
path. -/
inductive WaitErr where
  | shortRead
  | longRead
  | osRead (errno : Int)
  | armFailed
deriving DecidableEq, Repr

/-- Side-effecting actions performed by `wait_then_consume_tfd_read`
after the readiness guard has been obtained. -/
inductive WaitAction where
  | clearReady
  | rearm
deriving DecidableEq, Repr

/-- Body of `wait_then_consume_tfd_read` (src/main.rs:50-82) after the
readiness guard is obtained: a direct transcription of the `match` on
the return value of `libc::read(tfd, &buf, 8)`.

Inputs: `readRet` is the `ssize_t` returned by the read; `errno` is the
OS error code observed via `io::Error::last_os_error()` (only consulted
on the negative branch); `rearmOk` is whether the
`arm_tfd_to_every_minute` call on the ECANCELED path succeeds.

Output: the ordered list of guard/timer actions performed, and the
result of the function.

Branches of the source `match`:
* `..0` (negative): if errno is ECANCELED, `guard.clear_ready()` then
  re-arm and early-return `Ok(())` (an arm failure propagates via `?`
  after the clear); otherwise fall through with `Err(err)`.
* `0..8`: fall through with the short-read error.
* `8`: fall through with `Ok(())`.
* `_` (> 8): fall through with the long-read error.
All fall-through branches then run the single `guard.clear_ready()` at
src/main.rs:79 and return. -/
def waitBody (readRet : Int) (errno : Int) (rearmOk : Bool) :
    List WaitAction × Except WaitErr Unit :=
  if readRet < 0 then
    if errno = ECANCELED then
      if rearmOk then
        ([.clearReady, .rearm], .ok ())
      else
        ([.clearReady, .rearm], .error .armFailed)
    else
      ([.clearReady], .error (.osRead errno))
  else if readRet < 8 then
    ([.clearReady], .error .shortRead)
  else if readRet = 8 then
    ([.clearReady], .ok ())
  else
    ([.clearReady], .error .longRead)

/-- Fields of a `timespec` as passed to `timerfd_settime`; `tv_sec` is a
`time_t` (i64 on this target). -/
structure Timespec where
  tv_sec : Int
  tv_nsec : Int
deriving DecidableEq, Repr

/-- Fields of an `itimerspec` as passed to `timerfd_settime`. -/
structure Itimerspec where
  it_value : Timespec
  it_interval : Timespec
deriving DecidableEq, Repr

/-- The wrapping `as` cast from u64 to i64 used at src/main.rs:123
(`next_minute_secs as libc::time_t`). -/
def u64_as_i64 (v : Nat) : Int :=
  if v < 2 ^ 63 then (v : Int) else (v : Int) - 2 ^ 64

/-- Value of `next_minute_secs` as computed at src/main.rs:119 in u64
arithmetic: `(now_secs / 60 + 1) * 60`, wrapping modulo 2^64. -/
def next_minute_secs (now_secs : Nat) : Nat :=
  ((now_secs / 60 + 1) * 60) % 2 ^ 64

/-- The minute-boundary formula as a mathematical function of the epoch
time, `(t div 60 + 1) * 60`, used to state the arming property. -/
def next_fire (t : Nat) : Nat :=
  (t / 60 + 1) * 60

/-- The `itimerspec` that `arm_tfd_to_every_minute`
(src/main.rs:113-146) hands to `timerfd_settime` when the current epoch
time in seconds is `now_secs` (a u64, from
`SystemTime::duration_since(UNIX_EPOCH).as_secs()`): first fire at the
next minute boundary in absolute time, then every 60 seconds. -/
def arm_tfd_itimerspec (now_secs : Nat) : Itimerspec :=
  { it_value := { tv_sec := u64_as_i64 (next_minute_secs now_secs), tv_nsec := 0 }
    it_interval := { tv_sec := 60, tv_nsec := 0 } }

/-- Key codes of crossterm events, as far as the listener closure
inspects them: a character key or anything else. -/
inductive KeyCode where
  | char (c : Char)
  | other
deriving DecidableEq, Repr

/-- Kind of a crossterm key event (press, repeat, or release). -/
inductive KeyEventKind where
  | press
  | repeatKind
  | release
deriving DecidableEq, Repr

/-- Input events delivered by `crossterm::event::read()`, restricted to
the fields the listener closure can observe. -/
inductive Event where
  | key (code : KeyCode) (kind : KeyEventKind)
  | resize
  | mouse
  | other
deriving DecidableEq, Repr

/-- The pattern tested by the listener thread at src/main.rs:26:
`matches!(event::read()?, Event::Key(key_event) if key_event.code ==
KeyCode::Char(q-character))`. Note that only the key code is inspected; the
kind of the key event is not. -/
def isQuitTrigger : Event → Bool
  | .key code _ => code = .char 'q'
  | _ => false

/-- The listener thread loop (src/main.rs:24-32) run over a list of
input events: scans events in order; at the first one matching
`isQuitTrigger` it sends one unit signal on the channel and returns.
Returns (number of sends, number of events consumed). An empty or
trigger-free list means the loop is still blocked in `event::read()`
having sent nothing. -/
def workerRun : List Event → Nat × Nat
  | [] => (0, 0)
  | e :: es =>
    if isQuitTrigger e then (1, 1)
    else
      let r := workerRun es
      (r.1, r.2 + 1)

/-- Outcome of the per-iteration `tokio::select!` race (src/main.rs:37-42):
either the timer-descriptor future resolved (with the given raw read
result, errno, and re-arm outcome), or the quit channel resolved. -/
inductive SelectEvent where
  | tfdRead (readRet : Int) (errno : Int) (rearmOk : Bool)
  | quitSignal
deriving DecidableEq, Repr

/-- Observable actions of the coordinator `main` loop. `awaitSelect` is
the suspension point where the per-iteration `tokio::select!` awaits the
two futures; `joinWorker` is the `event_thread_handle.join()` after the
loop breaks. -/
inductive MainAction where
  | draw
  | awaitSelect
  | clearReady
  | rearm
  | joinWorker
deriving DecidableEq, Repr

/-- Lift the bridge actions into the coordinator action alphabet. -/
def WaitAction.toMain : WaitAction → MainAction
  | .clearReady => .clearReady
  | .rearm => .rearm

/-- Trace of the coordinator loop (src/main.rs:35-45) driven by a list
of injected select outcomes. Each iteration draws
(`terminal.draw(draw)?` at the top of the loop body), then suspends on
the select. If the timer branch wins, the bridge actions run and the
iteration ends in `continue` — note the select arm
`_ = wait_then_consume_tfd_read(&tfd) => continue` discards the
result, so even an `Err` outcome continues the loop. If the quit
branch wins, the loop breaks and the worker thread is joined. An
exhausted event list leaves the loop parked at the select. -/
def mainTrace : List SelectEvent → List MainAction
  | [] => [.draw, .awaitSelect]
  | .tfdRead r errno rearmOk :: es =>
    .draw :: .awaitSelect ::
      ((waitBody r errno rearmOk).1.map WaitAction.toMain ++ mainTrace es)
  | .quitSignal :: _ => [.draw, .awaitSelect, .joinWorker]

/-- Result of `main` (src/main.rs:35-47) under the same injected select
outcomes: `none` while the loop is still parked; on the quit branch the
loop breaks, the terminal is restored, and
`event_thread_handle.join().unwrap()?` propagates the worker result
`workerRes`, after which `main` returns `Ok(())`. A timer-branch
outcome — success or error — is discarded and the loop continues. -/
def mainResult (events : List SelectEvent) (workerRes : Except String Unit) :
    Option (Except String Unit) :=
  match events with
  | [] => none
  | .tfdRead _ _ _ :: es => mainResult es workerRes
  | .quitSignal :: _ => some workerRes

/-- Number of occurrences of an action in a trace. -/
def countAction (a : MainAction) (t : List MainAction) : Nat :=
  t.countP (· = a)

/-- The end-to-end scenario of §8 of the spec: tick, tick,
clock-step cancellation (with a successful re-arm), tick, quit. -/
def scenarioEvents : List SelectEvent :=
  [.tfdRead 8 0 true, .tfdRead 8 0 true, .tfdRead (-1) ECANCELED true,
   .tfdRead 8 0 true, .quitSignal]

/-- The two ways an iteration of the `main` loop can end. -/
inductive LoopBranch where
  | continueLoop
  | breakLoop
deriving DecidableEq, Repr

/-- Which way the loop goes after a select outcome (src/main.rs:37-42):
the arm `_ = wait_then_consume_tfd_read(&tfd) => continue` continues
regardless of the result of the bridge future, and the quit arm breaks. -/
def loopBranch : SelectEvent → LoopBranch
  | .tfdRead _ _ _ => .continueLoop
  | .quitSignal => .breakLoop

/-! ## Helper lemmas -/

/-- A trigger-free event list makes the worker send nothing while
consuming every event. -/
theorem workerRun_no_trigger (evs : List Event)
    (h : ∀ x ∈ evs, isQuitTrigger x = false) :
    workerRun evs = (0, evs.length) := by
  induction evs with
  | nil => rfl
  | cons e es ih =>
    have he := h e (by simp)
    simp [workerRun, he, ih fun x hx => h x (by simp [hx])]

/-- The worker sends exactly one signal at the first trigger and stops
there. -/
theorem workerRun_first_trigger (pre post : List Event) (e : Event)
    (hpre : ∀ x ∈ pre, isQuitTrigger x = false)
    (he : isQuitTrigger e = true) :
    workerRun (pre ++ e :: post) = (1, pre.length + 1) := by
  induction pre with
  | nil => simp [workerRun, he]
  | cons p ps ih =>
    have hp := hpre p (by simp)
    simp [workerRun, hp, ih fun x hx => hpre x (by simp [hx])]

/-- The worker never sends more than one signal. -/
theorem workerRun_sends_le_one (evs : List Event) : (workerRun evs).1 ≤ 1 := by
  induction evs with
  | nil => decide
  | cons e es ih =>
    by_cases h : isQuitTrigger e
    · simp [workerRun, h]
    · simpa [workerRun, h] using ih

/-- Processing a quit signal appends exactly the worker join to the
trace and ignores all later events. -/
theorem mainTrace_quit_append (pre post : List SelectEvent)
    (h : SelectEvent.quitSignal ∉ pre) :
    mainTrace (pre ++ SelectEvent.quitSignal :: post)
      = mainTrace pre ++ [MainAction.joinWorker] := by
  induction pre with
  | nil => rfl
  | cons e es ih =>
    match e with
    | .quitSignal => exact absurd (by simp) h
    | .tfdRead r errno ro =>
      have h' : SelectEvent.quitSignal ∉ es := fun hx => h (by simp [hx])
      simp [mainTrace, ih h', List.append_assoc]

/-! ## Claim theorems -/

/-- C3: for every possible return value of the 8-byte read on the timer
descriptor, `wait_then_consume_tfd_read` classifies it as the five-way
partition: 8 bytes is a normal tick (success); 0 to 7 bytes is a
truncated-read error; more than 8 bytes is an oversized-read error; a
negative result with errno ECANCELED is swallowed (the timer is
re-armed and the function resolves successfully, without the tick
consumption that the 8-byte branch represents); a negative result with
any other errno fails with that error. -/
theorem wait_read_classification (r errno : Int) (rearmOk : Bool) :
    (r = 8 → waitBody r errno rearmOk = ([.clearReady], .ok ())) ∧
    (0 ≤ r → r ≤ 7 →
      waitBody r errno rearmOk = ([.clearReady], .error .shortRead)) ∧
    (8 < r → waitBody r errno rearmOk = ([.clearReady], .error .longRead)) ∧
    (r < 0 → errno = ECANCELED → rearmOk = true →
      waitBody r errno rearmOk = ([.clearReady, .rearm], .ok ())) ∧
    (r < 0 → errno ≠ ECANCELED →
      waitBody r errno rearmOk = ([.clearReady], .error (.osRead errno))) := by
  refine ⟨?_, ?_, ?_, ?_, ?_⟩
  · rintro rfl
    norm_num [waitBody]
  · intro h0 h7
    have h1 : ¬ r < 0 := by omega
    have h2 : r < 8 := by omega
    have h3 : ¬ r = 8 := by omega
    simp [waitBody, h1, h2, h3]
  · intro h
    have h1 : ¬ r < 0 := by omega
    have h2 : ¬ r < 8 := by omega
    have h3 : ¬ r = 8 := by omega
    simp [waitBody, h1, h2, h3]
  · rintro h rfl rfl
    simp [waitBody, h]
  · intro h hne
    simp [waitBody, h, hne]

/-- Witness for C3 at concrete inputs: an 8-byte read and a swallowed
cancellation. -/
theorem wait_read_classification_witness :
    waitBody 8 0 true = ([.clearReady], .ok ()) ∧
    waitBody (-1) ECANCELED true = ([.clearReady, .rearm], .ok ()) :=
  ⟨(wait_read_classification 8 0 true).1 rfl,
   (wait_read_classification (-1) ECANCELED true).2.2.2.1 (by norm_num) rfl rfl⟩

/-- C4: on every exit path of `wait_then_consume_tfd_read` reached
after the readiness guard has been obtained — normal tick, truncated
read, oversized read, ECANCELED swallow with either re-arm outcome, and
any other read error — `clear_ready` is called exactly once. -/
theorem clear_ready_called_exactly_once (r errno : Int) (rearmOk : Bool) :
    (waitBody r errno rearmOk).1.count WaitAction.clearReady = 1 := by
  unfold waitBody
  split_ifs <;> rfl

/-- C1 (code bug): an error from `wait_then_consume_tfd_read` does NOT
abort the main loop. The select arm at src/main.rs:38 binds the result
to the wildcard pattern and continues, so after a short read (read
returns 3, a truncated-read error) the coordinator draws again and,
after a later quit signal, the process still exits cleanly — instead of
terminating non-zero with the error as the spec requires. -/
theorem wait_error_discarded_by_select :
    (waitBody 3 0 true).2 = .error .shortRead ∧
    mainTrace [SelectEvent.tfdRead 3 0 true, SelectEvent.quitSignal]
      = [.draw, .awaitSelect, .clearReady, .draw, .awaitSelect, .joinWorker] ∧
    mainResult [SelectEvent.tfdRead 3 0 true, SelectEvent.quitSignal]
      (.ok ()) = some (.ok ()) :=
  ⟨rfl, rfl, rfl⟩

/-- C2 counterexample: on the injected sequence {tick, tick,
cancellation, tick, quit-signal} the draw callback runs 5 times, not 3:
the draw sits at the top of each loop iteration, so the swallowed
cancellation and the iteration consuming the quit signal each draw
too. -/
theorem scenario_draw_count_is_five_not_three :
    countAction MainAction.draw (mainTrace scenarioEvents) = 5 ∧
    countAction MainAction.draw (mainTrace scenarioEvents) ≠ 3 := by
  decide

/-- C2 amended: on the injected sequence {tick, tick, cancellation,
tick, quit-signal} the loop draws exactly 5 times (once at the top of
each iteration, including the one after the swallowed cancellation),
re-arms exactly once (directly after the cancellation event), and
terminates cleanly with the worker joined successfully. -/
theorem scenario_five_draws_one_rearm_clean_exit :
    mainTrace scenarioEvents =
      [.draw, .awaitSelect, .clearReady,
       .draw, .awaitSelect, .clearReady,
       .draw, .awaitSelect, .clearReady, .rearm,
       .draw, .awaitSelect, .clearReady,
       .draw, .awaitSelect, .joinWorker] ∧
    countAction MainAction.draw (mainTrace scenarioEvents) = 5 ∧
    countAction MainAction.rearm (mainTrace scenarioEvents) = 1 ∧
    mainResult scenarioEvents (.ok ()) = some (.ok ()) :=
  ⟨rfl, rfl, rfl, rfl⟩

/-- C5 counterexample: at epoch time 2^63 the computed minute boundary
(t / 60 + 1) * 60 = 9223372036854775860 no longer fits in time_t, and
the wrapping `as` cast at src/main.rs:123 stores a negative first-fire
time instead of the next minute boundary — in particular not a time
strictly in the future. -/
theorem arm_wraps_at_huge_epoch :
    (arm_tfd_itimerspec (2 ^ 63)).it_value.tv_sec = -9223372036854775756 ∧
    (arm_tfd_itimerspec (2 ^ 63)).it_value.tv_sec
      ≠ (((2 ^ 63 / 60 + 1) * 60 : Nat) : Int) ∧
    (arm_tfd_itimerspec (2 ^ 63)).it_value.tv_sec < ((2 ^ 63 : Nat) : Int) := by
  refine ⟨by decide, by decide, by decide⟩

/-- C5 amended: for every epoch time t whose next minute boundary
(t / 60 + 1) * 60 is representable in time_t (below 2^63), arming sets
the first absolute fire time to next_fire t = (t / 60 + 1) * 60 with a
recurring interval of 60 seconds, and next_fire t > t; in particular
next_fire 125 = 180 and next_fire 180 = 240, so arming at an exact
minute boundary never fires immediately. -/
theorem arm_sets_next_minute_boundary (t : Nat)
    (h : (t / 60 + 1) * 60 < 2 ^ 63) :
    (arm_tfd_itimerspec t).it_value.tv_sec = (next_fire t : Int) ∧
    (arm_tfd_itimerspec t).it_value.tv_nsec = 0 ∧
    (arm_tfd_itimerspec t).it_interval.tv_sec = 60 ∧
    (arm_tfd_itimerspec t).it_interval.tv_nsec = 0 ∧
    t < next_fire t ∧
    next_fire 125 = 180 ∧ next_fire 180 = 240 := by
  have h64 : (t / 60 + 1) * 60 < 2 ^ 64 := lt_trans h (by norm_num)
  have hmod : next_minute_secs t = (t / 60 + 1) * 60 :=
    Nat.mod_eq_of_lt h64
  refine ⟨?_, rfl, rfl, rfl, ?_, by decide, by decide⟩
  · show u64_as_i64 (next_minute_secs t) = (next_fire t : Int)
    rw [hmod]
    unfold u64_as_i64 next_fire
    rw [if_pos h]
  · unfold next_fire
    omega

/-- Witness for C5 amended at t = 125. -/
theorem arm_sets_next_minute_boundary_witness :
    (125 / 60 + 1) * 60 < 2 ^ 63 ∧
    (arm_tfd_itimerspec 125).it_value.tv_sec = (next_fire 125 : Int) :=
  ⟨by norm_num, (arm_sets_next_minute_boundary 125 (by norm_num)).1⟩

/-- C6: in every execution of the coordinator, the draw callback is
invoked at least once strictly before the first suspension point (the
select awaiting descriptor readiness and the quit channel) is entered:
the trace up to the first `awaitSelect` contains a `draw`. -/
theorem draw_before_first_suspension (events : List SelectEvent) :
    ∃ pre post, mainTrace events = pre ++ MainAction.awaitSelect :: post ∧
      MainAction.awaitSelect ∉ pre ∧ MainAction.draw ∈ pre := by
  have hpost : ∃ post,
      mainTrace events = MainAction.draw :: MainAction.awaitSelect :: post := by
    match events with
    | [] => exact ⟨[], rfl⟩
    | .tfdRead r errno rearmOk :: es => exact ⟨_, rfl⟩
    | .quitSignal :: es => exact ⟨[MainAction.joinWorker], rfl⟩
  obtain ⟨post, hp⟩ := hpost
  exact ⟨[MainAction.draw], post, hp, by decide, by decide⟩

/-- C7: the worker thread sends the quit signal at most once in any
execution; on the first input event matching the quit trigger it sends
exactly one unit signal and returns immediately, consuming no further
events; on any input sequence with no matching event it sends
nothing. -/
theorem worker_sends_quit_at_most_once
    (evs pre post : List Event) (e : Event)
    (hnone : ∀ x ∈ evs, isQuitTrigger x = false)
    (hpre : ∀ x ∈ pre, isQuitTrigger x = false)
    (he : isQuitTrigger e = true) :
    (∀ l : List Event, (workerRun l).1 ≤ 1) ∧
    workerRun (pre ++ e :: post) = (1, pre.length + 1) ∧
    workerRun evs = (0, evs.length) :=
  ⟨workerRun_sends_le_one, workerRun_first_trigger pre post e hpre he,
   workerRun_no_trigger evs hnone⟩

/-- Witness for C7: a resize event, then a press of the quit key, then
another key; the worker sends once and consumes exactly two events. -/
theorem worker_sends_quit_at_most_once_witness :
    workerRun [Event.resize, Event.key (KeyCode.char 'q') KeyEventKind.press,
      Event.key (KeyCode.char 'x') KeyEventKind.press] = (1, 2) :=
  (worker_sends_quit_at_most_once [] [Event.resize]
    [Event.key (KeyCode.char 'x') KeyEventKind.press]
    (Event.key (KeyCode.char 'q') KeyEventKind.press)
    (by simp) (by rintro x hx; simp at hx; subst hx; rfl) rfl).2.1

/-- C8: when the quit-signal branch of the per-iteration race resolves,
the coordinator exits the main loop immediately: beyond the trace
already produced before the quit signal resolved, the only remaining
action is joining the worker — in particular the draw callback is never
invoked again. -/
theorem quit_branch_exits_loop (pre post : List SelectEvent)
    (h : SelectEvent.quitSignal ∉ pre) :
    ∃ s, mainTrace (pre ++ SelectEvent.quitSignal :: post)
        = mainTrace pre ++ s ∧
      MainAction.draw ∉ s ∧
      loopBranch SelectEvent.quitSignal = LoopBranch.breakLoop :=
  ⟨[MainAction.joinWorker], mainTrace_quit_append pre post h,
   by decide, rfl⟩

/-- Witness for C8: one tick followed by the quit signal. -/
theorem quit_branch_exits_loop_witness :
    SelectEvent.quitSignal ∉ [SelectEvent.tfdRead 8 0 true] ∧
    ∃ s, mainTrace ([SelectEvent.tfdRead 8 0 true]
          ++ SelectEvent.quitSignal :: [])
        = mainTrace [SelectEvent.tfdRead 8 0 true] ++ s ∧
      MainAction.draw ∉ s ∧
      loopBranch SelectEvent.quitSignal = LoopBranch.breakLoop :=
  ⟨by decide,
   quit_branch_exits_loop [SelectEvent.tfdRead 8 0 true] [] (by decide)⟩

/-- C9 counterexample: a key event with code Char q whose kind is
release — not a press — is still treated as the quit trigger, because
the listener pattern at src/main.rs:26 inspects only the key code. -/
theorem release_q_key_triggers_quit :
    isQuitTrigger (Event.key (KeyCode.char 'q') KeyEventKind.release) = true ∧
    KeyEventKind.release ≠ KeyEventKind.press := by
  decide

/-- C9 amended: the worker treats an input event as the quit trigger if
and only if it is a key event of ANY kind (press, repeat, or release)
whose code is the character q; the comparison is case-sensitive (the
uppercase letter does not trigger), and resize, mouse, and other events
are ignored. -/
theorem quit_trigger_iff_q_key_any_kind (e : Event) :
    (isQuitTrigger e = true ↔ ∃ k, e = Event.key (KeyCode.char 'q') k) ∧
    isQuitTrigger (Event.key (KeyCode.char 'Q') KeyEventKind.press) = false ∧
    isQuitTrigger Event.resize = false ∧
    isQuitTrigger Event.mouse = false := by
  refine ⟨?_, rfl, rfl, rfl⟩
  cases e with
  | key code kind => cases code <;> simp [isQuitTrigger]
  | resize => simp [isQuitTrigger]
  | mouse => simp [isQuitTrigger]
  | other => simp [isQuitTrigger]

/-- C10: `wait_then_consume_tfd_read` resolves to the identical value
Ok(()) both for a normal 8-byte tick and for a swallowed ECANCELED
clock-step cancellation (with the re-arm succeeding), so the caller
cannot distinguish them from the return value; the coordinator takes
the same branch — continue the loop — in both cases. -/
theorem swallowed_cancel_indistinguishable_from_tick (r errno : Int)
    (hr : r < 0) (he : errno = ECANCELED) :
    (waitBody r errno true).2 = Except.ok () ∧
    (waitBody r errno true).2 = (waitBody 8 0 true).2 ∧
    loopBranch (SelectEvent.tfdRead r errno true)
      = loopBranch (SelectEvent.tfdRead 8 0 true) := by
  subst he
  have hc : (waitBody r ECANCELED true).2 = Except.ok () := by
    unfold waitBody
    rw [if_pos hr, if_pos rfl]
    rfl
  exact ⟨hc, by rw [hc]; rfl, rfl⟩

/-- Witness for C10 at a concrete cancelled read. -/
theorem swallowed_cancel_indistinguishable_from_tick_witness :
    (-1 : Int) < 0 ∧ (waitBody (-1) ECANCELED true).2 = Except.ok () :=
  ⟨by norm_num,
   (swallowed_cancel_indistinguishable_from_tick (-1) ECANCELED
     (by norm_num) rfl).1⟩
